import Mathlib

/-!
Shallow embedding of the core pricing function `option_tree` of
`src/bTreeOptionCalc.py` (a binomial-tree European option pricer).

Modelling choices:
* Python floats are idealised as real numbers and `math.exp` as `Real.exp`.
* Python's `time_steps` is an `Int` (the source does not restrict its sign).
* The runtime exceptions the function can raise are modelled with `Except`:
  - `uptick == downtick` makes line 44, `p = (e - downtick) / (uptick - downtick)`,
    raise a raw `ZeroDivisionError`;
  - `time_steps < 0` makes every comprehension and loop empty, so line 63,
    `print(..., option_tree[0][0])`, raises `IndexError` on the empty grid.
* The triangular grids are lists of rows; a row at `step` has `step + 1`
  entries.  The source pre-fills the grids with zeros and then assigns every
  cell exactly once, so the functional construction below builds each row
  directly from its final formula.
-/

/-- Runtime exceptions that `option_tree` can raise. -/
inductive PyError where
  | zeroDivisionError
  | indexError

/-- Row `step` of the stock tree, line 51 of the source:
`stock_tree[step][j] = stock_price * (uptick ** j) * (downtick ** (step - j))`
for `j in range(step + 1)`. -/
noncomputable def stockRow (stock_price uptick downtick : ℝ) (step : ℕ) : List ℝ :=
  (List.range (step + 1)).map (fun j => stock_price * uptick ^ j * downtick ^ (step - j))

/-- The triangular stock-price grid, lines 46 and 49-51 of the source:
rows `0 .. time_steps`. -/
noncomputable def stockGrid (stock_price uptick downtick : ℝ) (time_steps : ℕ) :
    List (List ℝ) :=
  (List.range (time_steps + 1)).map (stockRow stock_price uptick downtick)

/-- Terminal row of the option tree, lines 53-54 of the source:
`option_tree[time_steps][j] = max(0, stock_tree[time_steps][j] - ex_price)`. -/
noncomputable def terminalRow (stock_price ex_price uptick downtick : ℝ) (time_steps : ℕ) :
    List ℝ :=
  (List.range (time_steps + 1)).map
    (fun j => max 0 ((stockRow stock_price uptick downtick time_steps).getD j 0 - ex_price))

/-- One backward-induction row, lines 56-61 of the source: from the row at
`step + 1`, the row at `step` has entries
`max(0, discount_factor * (p * row[j + 1] + (1 - p) * row[j]))`. -/
noncomputable def backRow (p discount_factor : ℝ) (step : ℕ) (row : List ℝ) : List ℝ :=
  (List.range (step + 1)).map (fun j =>
    max 0 (discount_factor * (p * row.getD (j + 1) 0 + (1 - p) * row.getD j 0)))

/-- `valueRowAux p df term N k` is the option-tree row at step `N - k`:
`k` counts backward-induction applications starting from the terminal row
(`k = 0`), mirroring the loop `for step in range(time_steps - 1, -1, -1)`. -/
noncomputable def valueRowAux (p discount_factor : ℝ) (term : List ℝ) (time_steps : ℕ) :
    ℕ → List ℝ
  | 0 => term
  | k + 1 =>
      backRow p discount_factor (time_steps - (k + 1))
        (valueRowAux p discount_factor term time_steps k)

/-- The option-value grid, rows `0 .. time_steps`: row `step` is the result of
`time_steps - step` backward-induction applications to the terminal row. -/
noncomputable def valueGrid (p discount_factor : ℝ) (term : List ℝ) (time_steps : ℕ) :
    List (List ℝ) :=
  (List.range (time_steps + 1)).map
    (fun step => valueRowAux p discount_factor term time_steps (time_steps - step))

open Classical in
/-- Lines 39-64 of the source, `option_tree(stock_price, ex_price, uptick,
downtick, risk_free_pct, time_steps, delta_time_step)`: computes
`risk_free_rate`, `discount_factor = exp(-risk_free_rate * delta_time_step)`,
`e = exp(risk_free_rate * delta_time_step)`,
`p = (e - downtick) / (uptick - downtick)` (raising `ZeroDivisionError` when
`uptick == downtick`), builds the stock and option grids, prints
`option_tree[0][0]` (raising `IndexError` when `time_steps < 0`, where all
grids are empty), and returns the pair `(stock_tree, option_tree)`. -/
noncomputable def option_tree (stock_price ex_price uptick downtick risk_free_pct : ℝ)
    (time_steps : ℤ) (delta_time_step : ℝ) :
    Except PyError (List (List ℝ) × List (List ℝ)) :=
  let risk_free_rate := risk_free_pct / 100
  let discount_factor := Real.exp (-risk_free_rate * delta_time_step)
  let e := Real.exp (risk_free_rate * delta_time_step)
  if uptick - downtick = 0 then .error .zeroDivisionError
  else
    let p := (e - downtick) / (uptick - downtick)
    match time_steps with
    | .ofNat n =>
        .ok (stockGrid stock_price uptick downtick n,
          valueGrid p discount_factor (terminalRow stock_price ex_price uptick downtick n) n)
    | .negSucc _ => .error .indexError

/-- The root value printed at line 63, `option_tree[0][0]`, when the call
succeeds (on failure nothing is printed). -/
noncomputable def printed_root (stock_price ex_price uptick downtick risk_free_pct : ℝ)
    (time_steps : ℤ) (delta_time_step : ℝ) : Option ℝ :=
  match option_tree stock_price ex_price uptick downtick risk_free_pct time_steps
      delta_time_step with
  | .ok (_, og) => some ((og.getD 0 []).getD 0 0)
  | .error _ => none

/-! Basic structural lemmas about the grids. -/

theorem getD_map_range {α : Type} (f : ℕ → α) (d : α) {n j : ℕ} (h : j < n) :
    ((List.range n).map f).getD j d = f j := by
  simp [List.getD_eq_getElem?_getD, List.getElem?_range h]

theorem stockRow_length (stock_price uptick downtick : ℝ) (step : ℕ) :
    (stockRow stock_price uptick downtick step).length = step + 1 := by
  simp [stockRow]

theorem stockRow_getD (stock_price uptick downtick : ℝ) {step j : ℕ} (hj : j ≤ step) :
    (stockRow stock_price uptick downtick step).getD j 0 =
      stock_price * uptick ^ j * downtick ^ (step - j) :=
  getD_map_range _ _ (by omega)

theorem stockGrid_getD (stock_price uptick downtick : ℝ) {time_steps step : ℕ}
    (h : step ≤ time_steps) :
    (stockGrid stock_price uptick downtick time_steps).getD step [] =
      stockRow stock_price uptick downtick step :=
  getD_map_range _ _ (by omega)

theorem terminalRow_getD (stock_price ex_price uptick downtick : ℝ) {time_steps j : ℕ}
    (hj : j ≤ time_steps) :
    (terminalRow stock_price ex_price uptick downtick time_steps).getD j 0 =
      max 0 ((stockRow stock_price uptick downtick time_steps).getD j 0 - ex_price) :=
  getD_map_range _ _ (by omega)

theorem backRow_getD (p discount_factor : ℝ) {step j : ℕ} (row : List ℝ) (hj : j ≤ step) :
    (backRow p discount_factor step row).getD j 0 =
      max 0 (discount_factor * (p * row.getD (j + 1) 0 + (1 - p) * row.getD j 0)) :=
  getD_map_range _ _ (by omega)

theorem valueGrid_getD (p discount_factor : ℝ) (term : List ℝ) {time_steps step : ℕ}
    (h : step ≤ time_steps) :
    (valueGrid p discount_factor term time_steps).getD step [] =
      valueRowAux p discount_factor term time_steps (time_steps - step) :=
  getD_map_range _ _ (by omega)

theorem valueRowAux_succ_eq (p discount_factor : ℝ) (term : List ℝ)
    {time_steps step : ℕ} (h : step < time_steps) :
    valueRowAux p discount_factor term time_steps (time_steps - step) =
      backRow p discount_factor step
        (valueRowAux p discount_factor term time_steps (time_steps - (step + 1))) := by
  have h1 : time_steps - step = (time_steps - (step + 1)) + 1 := by omega
  rw [h1, valueRowAux]
  have h2 : time_steps - (time_steps - (step + 1) + 1) = step := by omega
  rw [h2]

theorem terminal_entry_eq (stock_price ex_price uptick downtick p discount_factor : ℝ)
    {N j : ℕ} (hj : j ≤ N) :
    ((valueGrid p discount_factor (terminalRow stock_price ex_price uptick downtick N)
        N).getD N []).getD j 0 =
      max 0 ((stockRow stock_price uptick downtick N).getD j 0 - ex_price) := by
  rw [valueGrid_getD _ _ _ (le_refl N), Nat.sub_self]
  exact terminalRow_getD _ _ _ _ hj

theorem option_tree_ok (stock_price ex_price uptick downtick risk_free_pct : ℝ)
    (N : ℕ) (delta_time_step : ℝ) (hud : uptick ≠ downtick) :
    option_tree stock_price ex_price uptick downtick risk_free_pct (N : ℤ) delta_time_step =
      .ok (stockGrid stock_price uptick downtick N,
        valueGrid
          ((Real.exp (risk_free_pct / 100 * delta_time_step) - downtick) /
            (uptick - downtick))
          (Real.exp (-(risk_free_pct / 100) * delta_time_step))
          (terminalRow stock_price ex_price uptick downtick N) N) := by
  rw [option_tree]
  rw [if_neg (sub_ne_zero.mpr hud)]

/-! Claim theorems. -/

/-- Claim C2: for every `S0, u, d` with `u ≠ d` and every `N ≥ 0`, the
stock-price grid returned by `option_tree` is triangular with exactly `N + 1`
rows, row `step` having exactly `step + 1` entries, and entry `(step, j)`
equal to the closed form `S0 * u ^ j * d ^ (step - j)`. -/
theorem c2_stock_grid_shape_closed_form
    (stock_price ex_price uptick downtick risk_free_pct delta_time_step : ℝ) (N : ℕ)
    (hud : uptick ≠ downtick) (sg vg : List (List ℝ))
    (hok : option_tree stock_price ex_price uptick downtick risk_free_pct (N : ℤ)
      delta_time_step = .ok (sg, vg)) :
    sg.length = N + 1 ∧
    (∀ step, step ≤ N → (sg.getD step []).length = step + 1) ∧
    (∀ step j, step ≤ N → j ≤ step →
      (sg.getD step []).getD j 0 = stock_price * uptick ^ j * downtick ^ (step - j)) := by
  rw [option_tree_ok _ _ _ _ _ _ _ hud] at hok
  simp only [Except.ok.injEq, Prod.mk.injEq] at hok
  obtain ⟨hsg, hvg⟩ := hok
  subst hsg
  refine ⟨by simp [stockGrid], ?_, ?_⟩
  · intro step h
    rw [stockGrid_getD _ _ _ h, stockRow_length]
  · intro step j h hj
    rw [stockGrid_getD _ _ _ h, stockRow_getD _ _ _ hj]

/-- Claim C2 witness at `S0 = 40`, `u = 2`, `d = 1`, `N = 2`. -/
theorem c2_witness :
    (2:ℝ) ≠ 1 ∧
    ((stockGrid 40 2 1 2).length = 2 + 1 ∧
     (∀ step, step ≤ 2 → ((stockGrid (40:ℝ) 2 1 2).getD step []).length = step + 1) ∧
     (∀ step j, step ≤ 2 → j ≤ step →
       ((stockGrid (40:ℝ) 2 1 2).getD step []).getD j 0 =
         40 * 2 ^ j * 1 ^ (step - j))) :=
  ⟨by norm_num,
   c2_stock_grid_shape_closed_form 40 35 2 1 4 (1/2) 2 (by norm_num) _ _
     (option_tree_ok 40 35 2 1 4 2 (1/2) (by norm_num))⟩

/-- Claim C3: for `u ≠ d` and `N ≥ 0`, the terminal row of the value grid
returned by `option_tree` is the clamped call payoff of the terminal price
row: `ValueGrid(N, j) = max 0 (PriceGrid(N, j) - K)` for every `j ≤ N`. -/
theorem c3_terminal_row_call_payoff
    (stock_price ex_price uptick downtick risk_free_pct delta_time_step : ℝ) (N j : ℕ)
    (hud : uptick ≠ downtick) (hj : j ≤ N) (sg vg : List (List ℝ))
    (hok : option_tree stock_price ex_price uptick downtick risk_free_pct (N : ℤ)
      delta_time_step = .ok (sg, vg)) :
    (vg.getD N []).getD j 0 = max 0 ((sg.getD N []).getD j 0 - ex_price) := by
  rw [option_tree_ok _ _ _ _ _ _ _ hud] at hok
  simp only [Except.ok.injEq, Prod.mk.injEq] at hok
  obtain ⟨hsg, hvg⟩ := hok
  subst hsg
  subst hvg
  rw [valueGrid_getD _ _ _ (le_refl N), Nat.sub_self]
  rw [show valueRowAux
      ((Real.exp (risk_free_pct / 100 * delta_time_step) - downtick) / (uptick - downtick))
      (Real.exp (-(risk_free_pct / 100) * delta_time_step))
      (terminalRow stock_price ex_price uptick downtick N) N 0 =
      terminalRow stock_price ex_price uptick downtick N from rfl]
  rw [terminalRow_getD _ _ _ _ hj, stockGrid_getD _ _ _ (le_refl N)]

/-- Claim C3 witness at `S0 = 40`, `K = 30`, `u = 2`, `d = 1`, `N = 0`, `j = 0`. -/
theorem c3_witness :
    (2:ℝ) ≠ 1 ∧
    ((valueGrid ((Real.exp ((4:ℝ) / 100 * (1 / 2)) - 1) / (2 - 1))
        (Real.exp (-((4:ℝ) / 100) * (1 / 2))) (terminalRow 40 30 2 1 0) 0).getD 0 []).getD 0 0 =
      max 0 (((stockGrid (40:ℝ) 2 1 0).getD 0 []).getD 0 0 - 30) :=
  ⟨by norm_num,
   c3_terminal_row_call_payoff 40 30 2 1 4 (1/2) 0 0 (by norm_num) (le_refl 0) _ _
     (option_tree_ok 40 30 2 1 4 0 (1/2) (by norm_num))⟩

/-- Every entry of any row reachable by backward induction from the terminal
row is nonnegative, because every written entry is a `max 0 _`. -/
theorem valueRowAux_mem_nonneg (p discount_factor stock_price ex_price uptick downtick : ℝ)
    (N : ℕ) :
    ∀ k, ∀ x ∈ valueRowAux p discount_factor
      (terminalRow stock_price ex_price uptick downtick N) N k, 0 ≤ x := by
  intro k
  induction k with
  | zero =>
      intro x hx
      simp only [valueRowAux, terminalRow, List.mem_map, List.mem_range] at hx
      obtain ⟨j, _, rfl⟩ := hx
      exact le_max_left _ _
  | succ n ih =>
      intro x hx
      simp only [valueRowAux, backRow, List.mem_map, List.mem_range] at hx
      obtain ⟨j, _, rfl⟩ := hx
      exact le_max_left _ _

/-- Claim C7: for every input with `u ≠ d` and `N ≥ 0` on which `option_tree`
returns, every entry of the returned value grid is nonnegative, at every step
and every level. -/
theorem c7_value_grid_nonneg
    (stock_price ex_price uptick downtick risk_free_pct delta_time_step : ℝ) (N : ℕ)
    (hud : uptick ≠ downtick) (sg vg : List (List ℝ))
    (hok : option_tree stock_price ex_price uptick downtick risk_free_pct (N : ℤ)
      delta_time_step = .ok (sg, vg)) :
    ∀ row ∈ vg, ∀ x ∈ row, 0 ≤ x := by
  rw [option_tree_ok _ _ _ _ _ _ _ hud] at hok
  simp only [Except.ok.injEq, Prod.mk.injEq] at hok
  obtain ⟨hsg, hvg⟩ := hok
  subst hvg
  intro row hrow
  simp only [valueGrid, List.mem_map, List.mem_range] at hrow
  obtain ⟨s, _, rfl⟩ := hrow
  exact valueRowAux_mem_nonneg _ _ _ _ _ _ _ _

/-- Claim C7 witness at `S0 = 40`, `K = 30`, `u = 2`, `d = 1`, `N = 1`. -/
theorem c7_witness :
    (2:ℝ) ≠ 1 ∧
    ∀ row ∈ valueGrid ((Real.exp ((4:ℝ) / 100 * (1 / 2)) - 1) / (2 - 1))
        (Real.exp (-((4:ℝ) / 100) * (1 / 2))) (terminalRow 40 30 2 1 1) 1,
      ∀ x ∈ row, 0 ≤ x :=
  ⟨by norm_num,
   c7_value_grid_nonneg 40 30 2 1 4 (1/2) 1 (by norm_num) _ _
     (option_tree_ok 40 30 2 1 4 1 (1/2) (by norm_num))⟩

/-- Claim C9: for `N = 0` (with `u ≠ d`), `option_tree` returns a price grid
consisting of exactly one node whose value is `S0`, and a value grid whose
single root entry is `max 0 (S0 - K)`; the backward-induction loop performs
zero iterations (the value grid is literally the one-entry terminal row). -/
theorem c9_zero_steps
    (stock_price ex_price uptick downtick risk_free_pct delta_time_step : ℝ)
    (hud : uptick ≠ downtick) :
    option_tree stock_price ex_price uptick downtick risk_free_pct 0 delta_time_step =
      .ok ([[stock_price]], [[max 0 (stock_price - ex_price)]]) := by
  have h := option_tree_ok stock_price ex_price uptick downtick risk_free_pct 0
    delta_time_step hud
  rw [show (((0:ℕ):ℤ)) = (0:ℤ) from rfl] at h
  rw [h]
  have hr : List.range 1 = [0] := rfl
  simp [stockGrid, stockRow, valueGrid, valueRowAux, terminalRow, hr]

/-- Claim C9 witness at `S0 = 40`, `K = 35`, `u = 2`, `d = 1`. -/
theorem c9_witness :
    (2:ℝ) ≠ 1 ∧
    option_tree 40 35 2 1 4 0 (1/2) = .ok ([[40]], [[max 0 ((40:ℝ) - 35)]]) :=
  ⟨by norm_num, c9_zero_steps 40 35 2 1 4 (1/2) (by norm_num)⟩

/-- Claim C10: `option_tree` is deterministic — two calls with equal arguments
return equal results; the result depends on nothing besides the arguments
(the embedding of the function is pure, and the source reads no mutable
state: its only non-argument inputs are the pure `math.exp` and `max`). -/
theorem c10_deterministic
    (s1 k1 u1 d1 r1 dt1 s2 k2 u2 d2 r2 dt2 : ℝ) (n1 n2 : ℤ)
    (hs : s1 = s2) (hk : k1 = k2) (hu : u1 = u2) (hd : d1 = d2) (hr : r1 = r2)
    (hn : n1 = n2) (hdt : dt1 = dt2) :
    option_tree s1 k1 u1 d1 r1 n1 dt1 = option_tree s2 k2 u2 d2 r2 n2 dt2 := by
  subst hs hk hu hd hr hn hdt
  rfl

/-- Claim C10 witness: two syntactically separate but equal argument tuples. -/
theorem c10_witness :
    option_tree 40 35 2 1 4 3 (1/2) = option_tree 40 35 2 1 4 3 (1/2) :=
  c10_deterministic 40 35 2 1 4 (1/2) 40 35 2 1 4 (1/2) 3 3 rfl rfl rfl rfl rfl rfl rfl

/-- Claim C1: for every input with `u ≠ d` and `N ≥ 1`, the value grid
returned by `option_tree` satisfies the backward-induction recurrence
`value(step, j) = max 0 (DF * (p * value(step+1, j+1) + (1-p) * value(step+1, j)))`
for every `step < N` and `j ≤ step`, with `DF = exp(-r * Δt)` and
`p = (exp(r * Δt) - d) / (u - d)` where `r = risk_free_pct / 100`; and the
root price reported by the print statement is entry `(0, 0)` of that grid. -/
theorem c1_backward_recurrence
    (stock_price ex_price uptick downtick risk_free_pct delta_time_step : ℝ)
    (N : ℕ) (hud : uptick ≠ downtick) (hN : 1 ≤ N)
    (step j : ℕ) (hstep : step < N) (hj : j ≤ step)
    (sg vg : List (List ℝ))
    (hok : option_tree stock_price ex_price uptick downtick risk_free_pct (N : ℤ)
      delta_time_step = .ok (sg, vg)) :
    (vg.getD step []).getD j 0 =
      max 0 (Real.exp (-(risk_free_pct / 100) * delta_time_step) *
        ((Real.exp (risk_free_pct / 100 * delta_time_step) - downtick) /
            (uptick - downtick) * (vg.getD (step + 1) []).getD (j + 1) 0 +
          (1 - (Real.exp (risk_free_pct / 100 * delta_time_step) - downtick) /
              (uptick - downtick)) * (vg.getD (step + 1) []).getD j 0)) ∧
    printed_root stock_price ex_price uptick downtick risk_free_pct (N : ℤ)
      delta_time_step = some ((vg.getD 0 []).getD 0 0) := by
  rw [option_tree_ok _ _ _ _ _ _ _ hud] at hok
  simp only [Except.ok.injEq, Prod.mk.injEq] at hok
  obtain ⟨hsg, hvg⟩ := hok
  subst hvg
  constructor
  · rw [valueGrid_getD _ _ _ (le_of_lt hstep),
      valueGrid_getD _ _ _ (show step + 1 ≤ N by omega),
      valueRowAux_succ_eq _ _ _ hstep, backRow_getD _ _ _ hj]
  · rw [printed_root, option_tree_ok _ _ _ _ _ _ _ hud]

/-- Claim C1 witness at `S0 = 1`, `K = 0`, `u = 2`, `d = 1`, `r = 0`,
`Δt = 1`, `N = 1`, `step = 0`, `j = 0`. -/
theorem c1_witness :
    (2:ℝ) ≠ 1 ∧
    (((valueGrid ((Real.exp ((0:ℝ) / 100 * 1) - 1) / (2 - 1))
          (Real.exp (-((0:ℝ) / 100) * 1)) (terminalRow 1 0 2 1 1) 1).getD 0 []).getD 0 0 =
        max 0 (Real.exp (-((0:ℝ) / 100) * 1) *
          ((Real.exp ((0:ℝ) / 100 * 1) - 1) / (2 - 1) *
              ((valueGrid ((Real.exp ((0:ℝ) / 100 * 1) - 1) / (2 - 1))
                  (Real.exp (-((0:ℝ) / 100) * 1)) (terminalRow 1 0 2 1 1) 1).getD
                  (0 + 1) []).getD (0 + 1) 0 +
            (1 - (Real.exp ((0:ℝ) / 100 * 1) - 1) / (2 - 1)) *
              ((valueGrid ((Real.exp ((0:ℝ) / 100 * 1) - 1) / (2 - 1))
                  (Real.exp (-((0:ℝ) / 100) * 1)) (terminalRow 1 0 2 1 1) 1).getD
                  (0 + 1) []).getD 0 0)) ∧
      printed_root 1 0 2 1 0 ((1:ℕ):ℤ) 1 =
        some (((valueGrid ((Real.exp ((0:ℝ) / 100 * 1) - 1) / (2 - 1))
          (Real.exp (-((0:ℝ) / 100) * 1)) (terminalRow 1 0 2 1 1) 1).getD 0 []).getD 0 0)) :=
  ⟨by norm_num,
   c1_backward_recurrence 1 0 2 1 0 1 1 (by norm_num) (le_refl 1) 0 0 (by omega) (le_refl 0)
     _ _ (option_tree_ok 1 0 2 1 0 1 1 (by norm_num))⟩

/-- Claim C4 counterexample: at `u = 0 ≤ 0` (with `d = 1`, `N = 0`) the claim
demands a `ValidationError`, but `option_tree` silently returns grids. -/
theorem c4_counterexample :
    (0:ℝ) ≤ 0 ∧ option_tree 40 40 0 1 4 0 1 = .ok ([[40]], [[0]]) := by
  refine ⟨le_refl 0, ?_⟩
  have h := option_tree_ok 40 40 0 1 4 0 1 (by norm_num)
  rw [show (((0:ℕ):ℤ)) = (0:ℤ) from rfl] at h
  rw [h]
  have hr : List.range 1 = [0] := rfl
  norm_num [stockGrid, stockRow, valueGrid, valueRowAux, terminalRow, hr]

/-- Claim C4 amended: `option_tree` performs no input validation at all.
When `u = d` it raises a raw `ZeroDivisionError` computing `p`; when `u ≠ d`
and `N < 0` it raises a raw `IndexError` printing the root of the empty grid;
when `u ≠ d` and `N ≥ 0` it silently returns grids for every other input
(including `u ≤ 0` or `d ≤ 0`); no `ValidationError` exists. -/
theorem c4_no_validation
    (stock_price ex_price uptick downtick risk_free_pct delta_time_step : ℝ)
    (time_steps : ℤ) :
    (uptick = downtick →
      option_tree stock_price ex_price uptick downtick risk_free_pct time_steps
        delta_time_step = .error .zeroDivisionError) ∧
    (uptick ≠ downtick → time_steps < 0 →
      option_tree stock_price ex_price uptick downtick risk_free_pct time_steps
        delta_time_step = .error .indexError) ∧
    (uptick ≠ downtick → 0 ≤ time_steps →
      ∃ sg vg, option_tree stock_price ex_price uptick downtick risk_free_pct time_steps
        delta_time_step = .ok (sg, vg)) := by
  refine ⟨?_, ?_, ?_⟩
  · intro h
    subst h
    rw [option_tree, if_pos (sub_self _)]
  · intro hud hneg
    cases time_steps with
    | ofNat n => exact absurd hneg (not_lt.mpr (Int.ofNat_nonneg n))
    | negSucc m => rw [option_tree, if_neg (sub_ne_zero.mpr hud)]
  · intro hud hpos
    obtain ⟨n, rfl⟩ := Int.eq_ofNat_of_zero_le hpos
    exact ⟨_, _, option_tree_ok _ _ _ _ _ _ _ hud⟩

/-- Claim C4 witness: the three outcomes at concrete inputs. -/
theorem c4_witness :
    option_tree 40 40 2 2 4 5 (1/2) = .error .zeroDivisionError ∧
    option_tree 40 40 2 1 4 (-1) (1/2) = .error .indexError ∧
    ∃ sg vg, option_tree 40 40 2 1 4 5 (1/2) = .ok (sg, vg) :=
  ⟨(c4_no_validation 40 40 2 2 4 (1/2) 5).1 rfl,
   (c4_no_validation 40 40 2 1 4 (1/2) (-1)).2.1 (by norm_num) (by norm_num),
   (c4_no_validation 40 40 2 1 4 (1/2) 5).2.2 (by norm_num) (by norm_num)⟩

/-- Claim C5 counterexample: with `r = 0`, `Δt = 1`, `u = 2`, `d = 3/2`,
`N = 0`, the risk-neutral probability `p = (exp(0) - 3/2) / (2 - 3/2) = -1`
lies outside `[0, 1]`, yet `option_tree` returns its grids normally instead
of failing with an `ArbitrageError`. -/
theorem c5_counterexample :
    (Real.exp ((0:ℝ) / 100 * 1) - 3 / 2) / (2 - 3 / 2) < 0 ∧
    option_tree 40 40 2 (3/2) 0 0 1 = .ok ([[40]], [[0]]) := by
  constructor
  · rw [show ((0:ℝ) / 100 * 1) = 0 by norm_num, Real.exp_zero]
    norm_num
  · have h := option_tree_ok 40 40 2 (3/2) 0 0 1 (by norm_num)
    rw [show (((0:ℕ):ℤ)) = (0:ℤ) from rfl] at h
    rw [h]
    have hr : List.range 1 = [0] := rfl
    norm_num [stockGrid, stockRow, valueGrid, valueRowAux, terminalRow, hr]

/-- Claim C5 amended: `option_tree` never checks the derived probability `p`:
for every input with `u ≠ d` and `N ≥ 0` whose `p` lies outside `[0, 1]` it
still returns its grids; no `ArbitrageError` exists in the code. -/
theorem c5_no_arbitrage_check
    (stock_price ex_price uptick downtick risk_free_pct delta_time_step : ℝ) (N : ℕ)
    (hud : uptick ≠ downtick)
    (hp : (Real.exp (risk_free_pct / 100 * delta_time_step) - downtick) /
          (uptick - downtick) < 0 ∨
        1 < (Real.exp (risk_free_pct / 100 * delta_time_step) - downtick) /
          (uptick - downtick)) :
    ∃ sg vg, option_tree stock_price ex_price uptick downtick risk_free_pct (N : ℤ)
      delta_time_step = .ok (sg, vg) :=
  ⟨_, _, option_tree_ok _ _ _ _ _ _ _ hud⟩

/-- Claim C5 witness at `r = 0`, `Δt = 1`, `u = 2`, `d = 3/2`, `N = 1`,
where `p = -1 < 0`. -/
theorem c5_witness :
    ((Real.exp ((0:ℝ) / 100 * 1) - 3 / 2) / (2 - 3 / 2) < 0 ∨
      1 < (Real.exp ((0:ℝ) / 100 * 1) - 3 / 2) / (2 - 3 / 2)) ∧
    ∃ sg vg, option_tree 40 40 2 (3/2) 0 ((1:ℕ):ℤ) 1 = .ok (sg, vg) :=
  ⟨Or.inl (by rw [show ((0:ℝ) / 100 * 1) = 0 by norm_num, Real.exp_zero]; norm_num),
   c5_no_arbitrage_check 40 40 2 (3/2) 0 1 1 (by norm_num)
     (Or.inl (by rw [show ((0:ℝ) / 100 * 1) = 0 by norm_num, Real.exp_zero]; norm_num))⟩

/-- Claim C6 counterexample: `option_tree` has no payoff-kind parameter, and
at `S0 = 10`, `K = 40`, `N = 0` it returns the call payoff
`max 0 (10 - 40) = 0`, not the put payoff `max 0 (40 - 10) = 30`: no
caller-chosen configuration of the function computes the put payoff. -/
theorem c6_counterexample :
    option_tree 10 40 2 (1/2) 0 0 1 = .ok ([[10]], [[0]]) ∧
    (0:ℝ) ≠ max 0 (40 - 10) := by
  constructor
  · have h := option_tree_ok 10 40 2 (1/2) 0 0 1 (by norm_num)
    rw [show (((0:ℕ):ℤ)) = (0:ℤ) from rfl] at h
    rw [h]
    have hr : List.range 1 = [0] := rfl
    norm_num [stockGrid, stockRow, valueGrid, valueRowAux, terminalRow, hr]
  · have h30 : max (0:ℝ) (40 - 10) = 30 := by
      rw [show ((40:ℝ) - 10) = 30 by norm_num]
      exact max_eq_right (by norm_num)
    rw [h30]
    norm_num

/-- Claim C6 amended: the terminal payoff is hardcoded to the call
`max 0 (price - K)`: every terminal entry of the value grid equals the call
payoff, and whenever the terminal price differs from the strike the computed
entry differs from the put payoff `max 0 (K - price)`; no caller-supplied
option selects the put. -/
theorem c6_payoff_hardcoded_call
    (stock_price ex_price uptick downtick risk_free_pct delta_time_step : ℝ) (N j : ℕ)
    (hud : uptick ≠ downtick) (hj : j ≤ N) (sg vg : List (List ℝ))
    (hok : option_tree stock_price ex_price uptick downtick risk_free_pct (N : ℤ)
      delta_time_step = .ok (sg, vg)) :
    (vg.getD N []).getD j 0 = max 0 ((sg.getD N []).getD j 0 - ex_price) ∧
    ((sg.getD N []).getD j 0 ≠ ex_price →
      (vg.getD N []).getD j 0 ≠ max 0 (ex_price - (sg.getD N []).getD j 0)) := by
  rw [option_tree_ok _ _ _ _ _ _ _ hud] at hok
  simp only [Except.ok.injEq, Prod.mk.injEq] at hok
  obtain ⟨hsg, hvg⟩ := hok
  subst hsg
  subst hvg
  rw [terminal_entry_eq _ _ _ _ _ _ hj, stockGrid_getD _ _ _ (le_refl N)]
  refine ⟨rfl, ?_⟩
  intro hne
  rcases lt_or_gt_of_ne hne with hlt | hgt
  · rw [max_eq_left (by linarith), max_eq_right (by linarith)]
    intro h0
    linarith
  · rw [max_eq_right (by linarith), max_eq_left (by linarith)]
    intro h0
    have h1 : (stockRow stock_price uptick downtick N).getD j 0 - ex_price > 0 := by linarith
    linarith

/-- Claim C6 witness at `S0 = 10`, `K = 40`, `u = 2`, `d = 1/2`, `N = 0`,
`j = 0`, where the terminal price `10` differs from the strike `40`. -/
theorem c6_witness :
    ((valueGrid ((Real.exp ((0:ℝ) / 100 * 1) - 1 / 2) / (2 - 1 / 2))
        (Real.exp (-((0:ℝ) / 100) * 1)) (terminalRow 10 40 2 (1/2) 0) 0).getD 0 []).getD 0 0 ≠
      max 0 (40 - ((stockGrid (10:ℝ) 2 (1/2) 0).getD 0 []).getD 0 0) :=
  (c6_payoff_hardcoded_call 10 40 2 (1/2) 0 1 0 0 (by norm_num) (le_refl 0) _ _
      (option_tree_ok 10 40 2 (1/2) 0 0 1 (by norm_num))).2
    (by
      have hr : List.range 1 = [0] := rfl
      norm_num [stockGrid, stockRow, hr])

/-- For `0 < S`, `1 < u`, `0 < d < u`, the node formula
`S * u ^ j * d ^ (step - j)` is strictly increasing in `j`. -/
theorem stockFormula_strictMono (stock_price uptick downtick : ℝ) (step : ℕ)
    (hS : 0 < stock_price) (hu : 1 < uptick) (hd0 : 0 < downtick)
    (hdu : downtick < uptick) :
    StrictMono (fun j => stock_price * uptick ^ j * downtick ^ (step - j)) := by
  apply strictMono_nat_of_lt_succ
  intro n
  show stock_price * uptick ^ n * downtick ^ (step - n) <
    stock_price * uptick ^ (n + 1) * downtick ^ (step - (n + 1))
  by_cases hn : n + 1 ≤ step
  · have hm : step - n = (step - (n + 1)) + 1 := by omega
    have hc : 0 < stock_price * uptick ^ n * downtick ^ (step - (n + 1)) := by positivity
    calc stock_price * uptick ^ n * downtick ^ (step - n)
        = stock_price * uptick ^ n * downtick ^ (step - (n + 1)) * downtick := by
          rw [hm, pow_succ]; ring
      _ < stock_price * uptick ^ n * downtick ^ (step - (n + 1)) * uptick :=
          mul_lt_mul_of_pos_left hdu hc
      _ = stock_price * uptick ^ (n + 1) * downtick ^ (step - (n + 1)) := by
          rw [pow_succ]; ring
  · have h1 : step - n = 0 := by omega
    have h2 : step - (n + 1) = 0 := by omega
    rw [h1, h2, pow_zero, mul_one, mul_one]
    exact mul_lt_mul_of_pos_left (pow_lt_pow_right₀ hu (Nat.lt_succ_self n)) hS

/-- Claim C8: for `S0 > 0` and `u > 1 > d > 0`, the price grid returned by
`option_tree` is strictly increasing in `j` within a row, strictly decreasing
along the all-down branch `(step, 0)`, and strictly increasing along the
all-up branch `(step, step)`. -/
theorem c8_price_grid_monotonicity
    (stock_price ex_price uptick downtick risk_free_pct delta_time_step : ℝ)
    (N step j1 j2 s1 s2 : ℕ)
    (hS : 0 < stock_price) (hu : 1 < uptick) (hd0 : 0 < downtick) (hd1 : downtick < 1)
    (hstepN : step ≤ N) (hj12 : j1 < j2) (hj2 : j2 ≤ step) (hs12 : s1 < s2) (hs2 : s2 ≤ N)
    (sg vg : List (List ℝ))
    (hok : option_tree stock_price ex_price uptick downtick risk_free_pct (N : ℤ)
      delta_time_step = .ok (sg, vg)) :
    (sg.getD step []).getD j1 0 < (sg.getD step []).getD j2 0 ∧
    (sg.getD s2 []).getD 0 0 < (sg.getD s1 []).getD 0 0 ∧
    (sg.getD s1 []).getD s1 0 < (sg.getD s2 []).getD s2 0 := by
  have hdu : downtick < uptick := lt_trans hd1 hu
  have hud : uptick ≠ downtick := ne_of_gt hdu
  rw [option_tree_ok _ _ _ _ _ _ _ hud] at hok
  simp only [Except.ok.injEq, Prod.mk.injEq] at hok
  obtain ⟨hsg, hvg⟩ := hok
  subst hsg
  refine ⟨?_, ?_, ?_⟩
  · rw [stockGrid_getD _ _ _ hstepN, stockRow_getD _ _ _ (by omega : j1 ≤ step),
      stockRow_getD _ _ _ hj2]
    exact stockFormula_strictMono _ _ _ step hS hu hd0 hdu hj12
  · rw [stockGrid_getD _ _ _ hs2, stockGrid_getD _ _ _ (by omega : s1 ≤ N),
      stockRow_getD _ _ _ (Nat.zero_le s2), stockRow_getD _ _ _ (Nat.zero_le s1)]
    simp only [pow_zero, mul_one, Nat.sub_zero]
    exact mul_lt_mul_of_pos_left (pow_lt_pow_right_of_lt_one₀ hd0 hd1 hs12) hS
  · rw [stockGrid_getD _ _ _ (by omega : s1 ≤ N), stockGrid_getD _ _ _ hs2,
      stockRow_getD _ _ _ (le_refl s1), stockRow_getD _ _ _ (le_refl s2)]
    simp only [Nat.sub_self, pow_zero, mul_one]
    exact mul_lt_mul_of_pos_left (pow_lt_pow_right₀ hu hs12) hS

/-- Claim C8 witness at `S0 = 40`, `u = 2`, `d = 1/2`, `N = 2`, with
`step = 1`, `j1 = 0 < j2 = 1`, `s1 = 0 < s2 = 1`. -/
theorem c8_witness :
    (0:ℝ) < 40 ∧
    (((stockGrid (40:ℝ) 2 (1/2) 2).getD 1 []).getD 0 0 <
        ((stockGrid (40:ℝ) 2 (1/2) 2).getD 1 []).getD 1 0 ∧
      ((stockGrid (40:ℝ) 2 (1/2) 2).getD 1 []).getD 0 0 <
        ((stockGrid (40:ℝ) 2 (1/2) 2).getD 0 []).getD 0 0 ∧
      ((stockGrid (40:ℝ) 2 (1/2) 2).getD 0 []).getD 0 0 <
        ((stockGrid (40:ℝ) 2 (1/2) 2).getD 1 []).getD 1 0) :=
  ⟨by norm_num,
   c8_price_grid_monotonicity 40 40 2 (1/2) 4 (1/2) 2 1 0 1 0 1 (by norm_num) (by norm_num)
     (by norm_num) (by norm_num) (by omega) (by omega) (by omega) (by omega) (by omega) _ _
     (option_tree_ok 40 40 2 (1/2) 4 2 (1/2) (by norm_num))⟩
